import Mathlib

/-
Verification of the TitleTrail resolution and batch-retrieval engine.

The definitions below are a shallow embedding of the Python source:
  - backend/dropdown_utils.py  (DropdownHandler.find_best_match,
    DropdownHandler.get_dropdown_options)
  - backend/scraper.py         (RTCScraper._get_values_for_year_period,
    RTCScraper._run_workflow, the fiscal year pattern table)
  - backend/document_processor.py (DocumentProcessor.get_values_for_year_period)

Python str values are modelled as Lean String; the handful of string
operations the source uses (lower, strip, replace, the in operator, split)
are implemented by structural recursion over the character list so that all
definitions evaluate inside the kernel.  Python dictionaries are modelled as
insertion-ordered association lists; dictionary update keeps the position of
an existing key, as CPython does.
-/

namespace TitleTrail

/-! ## Python string primitives -/

/-- Python str.lower, character by character. -/
def pyLower (s : String) : String := String.mk (s.data.map Char.toLower)

/-- Leading and trailing whitespace removal over a character list. -/
def trimChars (l : List Char) : List Char :=
  ((l.dropWhile Char.isWhitespace).reverse.dropWhile Char.isWhitespace).reverse

/-- Python str.strip with no argument. -/
def pyStrip (s : String) : String := String.mk (trimChars s.data)

/-- Helper for the Python in operator on strings: does the second list occur
as a contiguous sublist of the first. -/
def hasSub : List Char → List Char → Bool
  | [], needle => needle.isEmpty
  | c :: t, needle => needle.isPrefixOf (c :: t) || hasSub t needle

/-- Python expression needle in hay, on str values. -/
def pyIn (needle hay : String) : Bool := hasSub hay.data needle.data

/-- Fuel-indexed worker for occurrence erasure, structural so that it
evaluates in the kernel.  The fuel is always the length of the list. -/
def eraseGo (pat : List Char) : Nat → List Char → List Char
  | _, [] => []
  | 0, l => l
  | fuel + 1, c :: rest =>
    if pat ≠ [] && pat.isPrefixOf (c :: rest) then
      eraseGo pat fuel ((c :: rest).drop pat.length)
    else
      c :: eraseGo pat fuel rest

/-- Python expression s.replace(pat, two double quotes): erase every
occurrence of pat, left to right, non-overlapping. -/
def pyEraseSub (s pat : String) : String :=
  String.mk (eraseGo pat.data s.data.length s.data)

/-- Python truthiness of a str value: nonempty. -/
def pyTruthy (s : String) : Bool := s ≠ ""

/-- Worker for Python str.split with no argument: split on whitespace runs,
dropping empty fragments.  First argument is the current word, reversed. -/
def wordsGo : List Char → List Char → List String
  | cur, [] => if cur.isEmpty then [] else [String.mk cur.reverse]
  | cur, c :: t =>
    if Char.isWhitespace c then
      if cur.isEmpty then wordsGo [] t else String.mk cur.reverse :: wordsGo [] t
    else
      wordsGo (c :: cur) t

/-- Python str.split with no argument. -/
def pyWords (s : String) : List String := wordsGo [] s.data

/-- Deduplicate a list of strings; only the cardinality of the result is
used, mirroring the Python set conversion. -/
def dedupStr : List String → List String
  | [] => []
  | x :: t =>
    let r := dedupStr t
    if r.contains x then r else x :: r

/-- Size of the intersection of the word sets of two strings, as in
len(set(a.split()) intersected with set(b.split())). -/
def sharedWordCount (a b : String) : Nat :=
  ((dedupStr (pyWords a)).filter (fun w => (pyWords b).contains w)).length

/-! ## Python dictionaries as insertion-ordered association lists -/

/-- A Python dict from str, modelled as an insertion-ordered entry list. -/
abbrev Dict := List (String × String)

/-- Dictionary lookup: the value of the first entry with the given key. -/
def lookupA {α : Type} : List (String × α) → String → Option α
  | [], _ => none
  | e :: t, k => if e.1 = k then some e.2 else lookupA t k

/-- Dictionary assignment d[k] = v: update in place if the key is present
(keeping its position), otherwise append at the end, as CPython does. -/
def insertA {α : Type} (d : List (String × α)) (k : String) (v : α) : List (String × α) :=
  if (lookupA d k).isSome then
    d.map (fun e => if e.1 = k then (k, v) else e)
  else
    d ++ [(k, v)]

/-! ## DropdownHandler.find_best_match (backend/dropdown_utils.py) -/

/-- The fixed list of domain noise words stripped during simplification. -/
def noiseWords : List String := ["district", "taluk", "hobli", "village"]

/-- Simplification used by find_best_match: for each noise word in order,
erase it and strip the result. -/
def simplify (s : String) : String :=
  noiseWords.foldl (fun acc w => pyStrip (pyEraseSub acc w)) s

/-- Entries of normalized_options: normalized key to (original text, value). -/
abbrev NormMap := List (String × (String × String))

/-- One iteration of the normalized_options construction loop: insert the
normalized text, and additionally the simplified text when it is truthy and
differs from the normalized text. -/
def normEntryInsert (acc : NormMap) (text value : String) : NormMap :=
  let nt := pyStrip (pyLower text)
  let acc2 := insertA acc nt (text, value)
  let st := simplify nt
  if pyTruthy st && st ≠ nt then insertA acc2 st (text, value) else acc2

/-- The normalized_options dictionary built by find_best_match. -/
def buildNormalizedOptions (options : Dict) : NormMap :=
  options.foldl (fun acc e => normEntryInsert acc e.1 e.2) []

/-- Tier 3 scan: containment in either direction, best match is the entry
with the strictly longest normalized text, ties kept at the earlier entry. -/
def tier3Scan (tl : String) (no : NormMap) : Option (String × String) :=
  (no.foldl
    (fun best e =>
      if pyIn tl e.1 || pyIn e.1 tl then
        if e.1.length > best.2 then (some e.2, e.1.length) else best
      else best)
    ((none : Option (String × String)), 0)).1

/-- Tier 4 scan: strictly largest shared word count, starting from zero, so
an entry is retained only when it shares at least one word. -/
def tier4Scan (tl : String) (no : NormMap) : Option (String × String) :=
  (no.foldl
    (fun best e =>
      let score := sharedWordCount tl e.1
      if score > best.2 then (some e.2, score) else best)
    ((none : Option (String × String)), 0)).1

/-- DropdownHandler.find_best_match: tiered fuzzy resolution of a target
name against a dropdown option map; none exactly when the map is empty. -/
def find_best_match (target : String) (options : Dict) : Option String :=
  match options with
  | [] => none
  | first :: _ =>
    let no := buildNormalizedOptions options
    let tl := pyStrip (pyLower target)
    match lookupA no tl with
    | some p => some p.2
    | none =>
      let st := simplify tl
      match lookupA no st with
      | some p => some p.2
      | none =>
        match tier3Scan tl no with
        | some p => some p.2
        | none =>
          match tier4Scan tl no with
          | some p => some p.2
          | none => some first.2

/-! ## DropdownHandler.get_dropdown_options (backend/dropdown_utils.py) -/

/-- One raw option element of the live dropdown: the value attribute and the
text content, each possibly absent. -/
structure RawOption where
  val : Option String
  txt : Option String

/-- Python: text = option.text_content().strip() if option.text_content()
else the empty string. -/
def optionText (o : RawOption) : String :=
  match o.txt with
  | some s => if pyTruthy s then pyStrip s else ""
  | none => ""

/-- DropdownHandler.get_dropdown_options, option extraction pass: keep an
entry exactly when its value attribute is present, truthy and not "0". -/
def get_dropdown_options (raw : List RawOption) : Dict :=
  raw.foldl
    (fun acc o =>
      match o.val with
      | some v => if pyTruthy v && v ≠ "0" then insertA acc (optionText o) v else acc
      | none => acc)
    []

/-! ## Fiscal period resolution (backend/scraper.py) -/

/-- The fiscal year to period text pattern table shared by RTCScraper and
DocumentProcessor. -/
def fiscal_year_patterns : List (String × List String) :=
  [("2012-13", ["2012-2013", "2012-13"]),
   ("2013-14", ["2013-2014", "2013-14"]),
   ("2014-15", ["2014-2015", "2014-15"]),
   ("2015-16", ["2015-2016", "2015-16"]),
   ("2016-17", ["2016-2017", "2016-17"]),
   ("2017-18", ["2017-2018", "2017-18"]),
   ("2018-19", ["2018-2019", "2018-19"]),
   ("2019-20", ["2019-2020", "2019-20"]),
   ("2020-21", ["2020-2021", "2020-21"])]

/-- patterns = self.fiscal_year_patterns.get(year_period, [year_period]). -/
def patternsFor (yp : String) : List String :=
  (lookupA fiscal_year_patterns yp).getD [yp]

/-- The general catch-all period label probed after the pattern tier. -/
def general_periods : List String :=
  ["2001-08-25 00:00:00 To 2020-03-10 17:17:00"]

/-- The hardcoded last-resort pair of both resolvers. -/
def hardcoded_pair : String × String := ("15-164943", "113")

/-- The nested period-to-years structure: period value to year dictionary. -/
abbrev PtoY := List (String × Dict)

/-- The year scan shared verbatim by both resolvers: first year entry that
is not the placeholder and whose text contains the pattern or the raw
fiscal label, yielding its value. -/
def bestYearScan (pattern yp : String) (years : Dict) : Option String :=
  years.findSome? (fun e =>
    if e.1 = "Select Year" then none
    else if pyIn pattern e.1 || pyIn yp e.1 then some e.2 else none)

/-- RTCScraper fallback inside a matched period: the first year key that is
not the placeholder; selected only when that key is truthy, then resolved
through the year dictionary. -/
def scraperFirstYearPair (pv : String) (years : Dict) : Option (String × String) :=
  match years.find? (fun e => decide (e.1 ≠ "Select Year")) with
  | some e =>
    if pyTruthy e.1 then (lookupA years e.1).map (fun v => (pv, v)) else none
  | none => none

/-- RTCScraper loop body for one period containing the pattern: look for a
matching year (used only when its value is truthy), otherwise fall back to
the first non-placeholder year of that period; none keeps the scan going. -/
def scraperPeriodBody (pattern yp : String) (ptoy : PtoY) (pv : String) :
    Option (String × String) :=
  match lookupA ptoy pv with
  | some years =>
    if years.isEmpty then none
    else
      match bestYearScan pattern yp years with
      | some y => if pyTruthy y then some (pv, y) else scraperFirstYearPair pv years
      | none => scraperFirstYearPair pv years
  | none => none

/-- RTCScraper pattern tier: for each pattern, scan the period dictionary in
order, processing each period containing the pattern. -/
def scraperTierPattern (yp : String) (patterns : List String) (pm : Dict) (ptoy : PtoY) :
    Option (String × String) :=
  patterns.findSome? (fun pattern =>
    pm.findSome? (fun e =>
      if e.1 = "Select Period" then none
      else if pyIn pattern e.1 then scraperPeriodBody pattern yp ptoy e.2
      else none))

/-- RTCScraper general tier: probe the catch-all period and return the first
year whose text contains any pattern (no placeholder skip here). -/
def scraperTierGeneral (patterns : List String) (pm : Dict) (ptoy : PtoY) :
    Option (String × String) :=
  general_periods.findSome? (fun ptext =>
    match lookupA pm ptext with
    | some pv =>
      match lookupA ptoy pv with
      | some years =>
        years.findSome? (fun e =>
          if patterns.any (fun p => pyIn p e.1) then some (pv, e.2) else none)
      | none => none
    | none => none)

/-- RTCScraper final fallback: first period with a nonempty year dictionary
and a non-"0" value, paired with its first year value that is not "0". -/
def scraperTierFallback (ptoy : PtoY) : Option (String × String) :=
  ptoy.findSome? (fun e =>
    if !e.2.isEmpty && e.1 ≠ "0" then
      e.2.findSome? (fun ye => if ye.2 ≠ "0" then some (e.1, ye.2) else none)
    else none)

/-- RTCScraper._get_values_for_year_period, the pure resolution (the initial
cache-file reload concerns only where the dictionaries come from). -/
def scraper_get_values_for_year_period (yp : String) (pm : Dict) (ptoy : PtoY) :
    String × String :=
  let patterns := patternsFor yp
  match scraperTierPattern yp patterns pm ptoy with
  | some r => r
  | none =>
    match scraperTierGeneral patterns pm ptoy with
    | some r => r
    | none =>
      match scraperTierFallback ptoy with
      | some r => r
      | none => hardcoded_pair

/-! ## DocumentProcessor.get_values_for_year_period
(backend/document_processor.py) -/

/-- DocumentProcessor matching_periods: the dictionary of periods containing
the pattern, built by insertion. -/
def dpMatchingPeriods (pattern : String) (pm : Dict) : Dict :=
  pm.foldl
    (fun acc e =>
      if e.1 = "Select Period" then acc
      else if pyIn pattern e.1 then insertA acc e.1 e.2 else acc)
    []

/-- DocumentProcessor filtered_years inside the pattern tier: drop the
placeholder year by dictionary comprehension. -/
def dpFilterYears (years : Dict) : Dict :=
  years.foldl
    (fun acc e => if e.1 ≠ "Select Year" then insertA acc e.1 e.2 else acc)
    []

/-- DocumentProcessor body for one matching period: matching year returned
directly, otherwise the first entry of filtered_years. -/
def dpPeriodBody (pattern yp : String) (ptoy : PtoY) (pv : String) :
    Option (String × String) :=
  match lookupA ptoy pv with
  | some years =>
    if years.isEmpty then none
    else
      match bestYearScan pattern yp years with
      | some y => some (pv, y)
      | none =>
        match dpFilterYears years with
        | [] => none
        | fe :: _ => some (pv, fe.2)
  | none => none

/-- DocumentProcessor pattern tier: build matching_periods per pattern, then
process them in order. -/
def dpTierPattern (yp : String) (patterns : List String) (pm : Dict) (ptoy : PtoY) :
    Option (String × String) :=
  patterns.findSome? (fun pattern =>
    (dpMatchingPeriods pattern pm).findSome? (fun e => dpPeriodBody pattern yp ptoy e.2))

/-- DocumentProcessor general tier: like the scraper one, but the
placeholder year is skipped. -/
def dpTierGeneral (patterns : List String) (pm : Dict) (ptoy : PtoY) :
    Option (String × String) :=
  general_periods.findSome? (fun ptext =>
    match lookupA pm ptext with
    | some pv =>
      match lookupA ptoy pv with
      | some years =>
        years.findSome? (fun e =>
          if e.1 = "Select Year" then none
          else if patterns.any (fun p => pyIn p e.1) then some (pv, e.2) else none)
      | none => none
    | none => none)

/-- DocumentProcessor fallback filtered_years: drop the placeholder year and
"0" values by dictionary comprehension. -/
def dpFallbackYears (years : Dict) : Dict :=
  years.foldl
    (fun acc e =>
      if e.1 ≠ "Select Year" && e.2 ≠ "0" then insertA acc e.1 e.2 else acc)
    []

/-- DocumentProcessor final fallback: first period with a nonempty year
dictionary and a non-"0" value whose filtered year dictionary is nonempty,
paired with the first filtered year value. -/
def dpTierFallback (ptoy : PtoY) : Option (String × String) :=
  ptoy.findSome? (fun e =>
    if !e.2.isEmpty && e.1 ≠ "0" then
      match dpFallbackYears e.2 with
      | [] => none
      | fe :: _ => some (e.1, fe.2)
    else none)

/-- DocumentProcessor.get_values_for_year_period.  The year_mapping argument
is accepted, as in the source, and never read. -/
def dp_get_values_for_year_period (yp : String) (pm : Dict) (ym : Dict) (ptoy : PtoY) :
    String × String :=
  let _ := ym
  let patterns := patternsFor yp
  match dpTierPattern yp patterns pm ptoy with
  | some r => r
  | none =>
    match dpTierGeneral patterns pm ptoy with
    | some r => r
    | none =>
      match dpTierFallback ptoy with
      | some r => r
      | none => hardcoded_pair

/-! ## The retrieval workflow (backend/scraper.py, _run_workflow) -/

/-- Per-fiscal-label outcome of the retrieval loop. -/
inductive Outcome where
  | Captured
  | ResolutionSkipped
  | CaptureFailed
deriving DecidableEq, Repr

/-- One iteration of the per-period loop: resolve the pair, skip when either
component is falsy, otherwise capture; a raising capture is caught and
recorded, the loop always continues. -/
def processLabel (resolveVals : String → String × String) (captureOk : String → Bool)
    (yp : String) : Outcome :=
  let r := resolveVals yp
  if pyTruthy r.1 && pyTruthy r.2 then
    if captureOk yp then Outcome.Captured else Outcome.CaptureFailed
  else Outcome.ResolutionSkipped

/-- The sequential retrieval loop over the requested fiscal labels. -/
def retrievalLoop (resolveVals : String → String × String) (captureOk : String → Bool) :
    List String → List Outcome
  | [] => []
  | yp :: rest =>
    processLabel resolveVals captureOk yp :: retrievalLoop resolveVals captureOk rest

/-- The identity-establishing cascade fields committed by
_fill_initial_form before the per-period loop starts. -/
def identityFields : List String :=
  ["district", "taluk", "hobli", "village", "surnoc", "hissa"]

/-- The default fiscal label target list of RTCScraper. -/
def year_range : List String :=
  ["2012-13", "2013-14", "2014-15", "2015-16", "2016-17", "2017-18",
   "2018-19", "2019-20", "2020-21"]

/-- RTCScraper._run_workflow control structure: a bounded-wait failure on an
identity-establishing field raises out of the initial cascade and aborts the
run before any per-period retrieval; otherwise every requested label is
processed by the loop. -/
def runWorkflow (waitOk : String → Bool) (resolveVals : String → String × String)
    (captureOk : String → Bool) (yearRange : List String) :
    Except String (List Outcome) :=
  if identityFields.all waitOk then
    Except.ok (retrievalLoop resolveVals captureOk yearRange)
  else
    Except.error "InteractionTimeout"

/-- Modelled from the spec: the sink-accepting variant of RTCScraper.run is
absent from the sources (backend/app.py invokes run with an image_callback
argument the checked-in scraper does not declare).  Following the spec, the
loop emits (bytes, metadata) to the sink at the moment a capture succeeds,
and emits nothing for skipped or failed labels. -/
def retrievalLoopEmit (resolveVals : String → String × String) (captureOk : String → Bool)
    (capturedBytes : String → String) : List String → List Outcome × List (String × String)
  | [] => ([], [])
  | yp :: rest =>
    let o := processLabel resolveVals captureOk yp
    let r := retrievalLoopEmit resolveVals captureOk capturedBytes rest
    (o :: r.1, (if o = Outcome.Captured then [(capturedBytes yp, yp)] else []) ++ r.2)

/-! ## The dropdown mappings cache file (backend/scraper.py, JSON snapshot) -/

/-- The fragment of JSON the mappings snapshot uses. -/
inductive Json where
  | str : String → Json
  | obj : List (String × Json) → Json

/-- Encode a flat str-to-str dictionary. -/
def encodeDict (d : Dict) : Json := Json.obj (d.map (fun e => (e.1, Json.str e.2)))

/-- Encode the nested period-to-years dictionary. -/
def encodePtoY (m : PtoY) : Json := Json.obj (m.map (fun e => (e.1, encodeDict e.2)))

/-- The snapshot written to dropdown_mappings.json. -/
def saveMappings (pm ym : Dict) (ptoy : PtoY) : Json :=
  Json.obj
    [("period_mapping", encodeDict pm),
     ("year_mapping", encodeDict ym),
     ("period_to_year_mapping", encodePtoY ptoy)]

/-- JSON object member access, as mappings.get(key). -/
def jGet (j : Json) (k : String) : Option Json :=
  match j with
  | Json.obj l => lookupA l k
  | Json.str _ => none

/-- Decode a flat str-to-str dictionary. -/
def decodeDict : Json → Dict
  | Json.obj l =>
    l.filterMap (fun e =>
      match e.2 with
      | Json.str s => some (e.1, s)
      | Json.obj _ => none)
  | Json.str _ => []

/-- Decode the nested period-to-years dictionary. -/
def decodePtoY : Json → PtoY
  | Json.obj l => l.map (fun e => (e.1, decodeDict e.2))
  | Json.str _ => []

/-- Reload of the snapshot: mappings.get with an empty dictionary default
for each of the three members. -/
def loadMappings (j : Json) : Dict × Dict × PtoY :=
  (((jGet j "period_mapping").map decodeDict).getD [],
   ((jGet j "year_mapping").map decodeDict).getD [],
   ((jGet j "period_to_year_mapping").map decodePtoY).getD [])

/-! ## Helper lemmas on association lists and option scans -/

theorem lookupA_nil {α : Type} (k : String) : lookupA ([] : List (String × α)) k = none :=
  rfl

theorem lookupA_cons {α : Type} (e : String × α) (t : List (String × α)) (k : String) :
    lookupA (e :: t) k = if e.1 = k then some e.2 else lookupA t k :=
  rfl

theorem lookupA_mem {α : Type} {d : List (String × α)} {k : String} {v : α}
    (h : lookupA d k = some v) : (k, v) ∈ d := by
  induction d with
  | nil => exact absurd h (by rw [lookupA_nil]; exact Option.noConfusion)
  | cons e t ih =>
    rw [lookupA_cons] at h
    by_cases hk : e.1 = k
    · rw [if_pos hk] at h
      injection h with hv
      subst hk
      subst hv
      exact List.mem_cons_self _ _
    · rw [if_neg hk] at h
      exact List.mem_cons_of_mem _ (ih h)

theorem lookupA_map_update {α : Type} (d : List (String × α)) (k k2 : String) (v : α)
    (h : k2 ≠ k) :
    lookupA (d.map (fun e => if e.1 = k then (k, v) else e)) k2 = lookupA d k2 := by
  induction d with
  | nil => rfl
  | cons e t ih =>
    by_cases hek : e.1 = k
    · rw [List.map_cons, if_pos hek, lookupA_cons, lookupA_cons]
      have h1 : k ≠ k2 := fun hh => h hh.symm
      have h2 : e.1 ≠ k2 := by rw [hek]; exact h1
      rw [if_neg h1, if_neg h2]
      exact ih
    · rw [List.map_cons, if_neg hek, lookupA_cons, lookupA_cons]
      by_cases he2 : e.1 = k2
      · rw [if_pos he2, if_pos he2]
      · rw [if_neg he2, if_neg he2]
        exact ih

theorem mem_insertA {α : Type} {d : List (String × α)} {k : String} {v : α}
    {x : String × α} (h : x ∈ insertA d k v) : x = (k, v) ∨ x ∈ d := by
  unfold insertA at h
  by_cases hs : (lookupA d k).isSome
  · rw [if_pos hs] at h
    obtain ⟨e, he, hx⟩ := List.mem_map.mp h
    by_cases hek : e.1 = k
    · rw [if_pos hek] at hx
      exact Or.inl hx.symm
    · rw [if_neg hek] at hx
      exact Or.inr (hx ▸ he)
  · rw [if_neg hs] at h
    rcases List.mem_append.mp h with h2 | h2
    · exact Or.inr h2
    · exact Or.inl (List.mem_singleton.mp h2)

theorem lookupA_append {α : Type} (a b : List (String × α)) (k : String) :
    lookupA (a ++ b) k =
      match lookupA a k with
      | some v => some v
      | none => lookupA b k := by
  induction a with
  | nil => rw [List.nil_append, lookupA_nil]
  | cons e t ih =>
    by_cases hek : e.1 = k
    · rw [List.cons_append, lookupA_cons, lookupA_cons, if_pos hek, if_pos hek]
    · rw [List.cons_append, lookupA_cons, lookupA_cons, if_neg hek, if_neg hek]
      exact ih

theorem lookupA_insertA_self {α : Type} (d : List (String × α)) (k : String) (v : α) :
    lookupA (insertA d k v) k = some v := by
  unfold insertA
  by_cases hs : (lookupA d k).isSome
  · rw [if_pos hs]
    induction d with
    | nil => rw [lookupA_nil] at hs; exact absurd hs (by simp)
    | cons e t ih =>
      by_cases hek : e.1 = k
      · rw [List.map_cons, if_pos hek, lookupA_cons, if_pos rfl]
      · rw [List.map_cons, if_neg hek, lookupA_cons, if_neg hek]
        rw [lookupA_cons, if_neg hek] at hs
        exact ih hs
  · rw [if_neg hs, lookupA_append]
    rw [Option.not_isSome_iff_eq_none] at hs
    rw [hs]
    simp [lookupA_cons]

theorem lookupA_insertA_ne {α : Type} (d : List (String × α)) (k k2 : String) (v : α)
    (h : k2 ≠ k) : lookupA (insertA d k v) k2 = lookupA d k2 := by
  unfold insertA
  by_cases hs : (lookupA d k).isSome
  · rw [if_pos hs]
    exact lookupA_map_update d k k2 v h
  · rw [if_neg hs, lookupA_append]
    cases hl : lookupA d k2 with
    | some w => rfl
    | none =>
      rw [lookupA_cons, lookupA_nil, if_neg (fun hh : k = k2 => h hh.symm)]

theorem findSome?_none_of {α β : Type} {f : α → Option β} :
    ∀ {l : List α}, (∀ a ∈ l, f a = none) → l.findSome? f = none := by
  intro l
  induction l with
  | nil => intro _; rfl
  | cons a t ih =>
    intro h
    have ha := h a (List.mem_cons_self _ _)
    rw [List.findSome?_cons, ha]
    exact ih (fun x hx => h x (List.mem_cons_of_mem _ hx))

theorem findSome?_congr_fun {α β : Type} {f g : α → Option β} :
    ∀ {l : List α}, (∀ a ∈ l, f a = g a) → l.findSome? f = l.findSome? g := by
  intro l
  induction l with
  | nil => intro _; rfl
  | cons a t ih =>
    intro h
    have ha := h a (List.mem_cons_self _ _)
    rw [List.findSome?_cons, List.findSome?_cons, ha]
    cases g a with
    | none => exact ih (fun x hx => h x (List.mem_cons_of_mem _ hx))
    | some b => rfl

theorem findSome?_of_find? {α β : Type} {p : α → Bool} {f : α → Option β} {a : α} {b : β} :
    ∀ {l : List α}, (∀ x ∈ l, p x = false → f x = none) →
      l.find? p = some a → f a = some b → l.findSome? f = some b := by
  intro l
  induction l with
  | nil => intro _ hfind _; exact absurd hfind (by simp)
  | cons x t ih =>
    intro hcompat hfind hfa
    by_cases hp : p x
    · rw [List.find?_cons_of_pos _ hp] at hfind
      injection hfind with hxa
      subst hxa
      rw [List.findSome?_cons, hfa]
    · have hpx : p x = false := by simpa using hp
      rw [List.find?_cons_of_neg _ (by simp [hpx])] at hfind
      have hfx := hcompat x (List.mem_cons_self _ _) hpx
      rw [List.findSome?_cons, hfx]
      exact ih (fun y hy => hcompat y (List.mem_cons_of_mem _ hy)) hfind hfa

theorem findSome?_filter {α β : Type} (p : α → Bool) (f : α → Option β) (l : List α) :
    (l.filter p).findSome? f = l.findSome? (fun a => if p a then f a else none) := by
  induction l with
  | nil => rfl
  | cons a t ih =>
    by_cases hp : p a
    · rw [List.filter_cons_of_pos hp, List.findSome?_cons, List.findSome?_cons, if_pos hp]
      cases f a with
      | none => exact ih
      | some b => rfl
    · have hp2 : p a = false := by simpa using hp
      rw [List.filter_cons_of_neg (by simp [hp2]), List.findSome?_cons,
        if_neg (by simp [hp2])]
      exact ih

theorem findSome?_guard_find? {α β : Type} (p : α → Bool) (g : α → β) (l : List α) :
    l.findSome? (fun x => if p x then some (g x) else none) = (l.find? p).map g := by
  induction l with
  | nil => rfl
  | cons a t ih =>
    by_cases hp : p a
    · rw [List.findSome?_cons, if_pos hp, List.find?_cons_of_pos _ hp]
      rfl
    · rw [List.findSome?_cons, if_neg hp, List.find?_cons_of_neg _ (by simpa using hp)]
      exact ih

theorem foldl_insertA_filterB {α : Type} (p : String × α → Bool) :
    ∀ (l acc : List (String × α)),
      (l.map Prod.fst).Nodup → (∀ e ∈ l, lookupA acc e.1 = none) →
      l.foldl (fun acc e => if p e then insertA acc e.1 e.2 else acc) acc =
        acc ++ l.filter p := by
  intro l
  induction l with
  | nil => intro acc _ _; simp
  | cons e t ih =>
    intro acc hnd hacc
    have hae := hacc e (List.mem_cons_self _ _)
    rw [List.map_cons, List.nodup_cons] at hnd
    have hnd2 := hnd.2
    have hkey := hnd.1
    by_cases hp : p e
    · have hins : insertA acc e.1 e.2 = acc ++ [(e.1, e.2)] := by
        unfold insertA
        rw [hae]
        rfl
      have hstep : ∀ x ∈ t, lookupA (acc ++ [(e.1, e.2)]) x.1 = none := by
        intro x hx
        rw [lookupA_append]
        have hx1 : lookupA acc x.1 = none := hacc x (List.mem_cons_of_mem _ hx)
        have hxe : e.1 ≠ x.1 := by
          intro hcontra
          exact hkey (hcontra ▸ List.mem_map_of_mem Prod.fst hx)
        rw [hx1, lookupA_cons, lookupA_nil, if_neg hxe]
      rw [List.foldl_cons, if_pos hp, hins, ih (acc ++ [(e.1, e.2)]) hnd2 hstep,
        List.filter_cons_of_pos hp, List.append_assoc]
      rfl
    · rw [List.foldl_cons, if_neg hp,
        ih acc hnd2 (fun x hx => hacc x (List.mem_cons_of_mem _ hx)),
        List.filter_cons_of_neg (by simpa using hp)]

theorem bestYearScan_eq_find? (pattern yp : String) (years : Dict) :
    bestYearScan pattern yp years =
      (years.find? (fun e =>
        decide (e.1 ≠ "Select Year") && (pyIn pattern e.1 || pyIn yp e.1))).map
        (fun e => e.2) := by
  induction years with
  | nil => rfl
  | cons e t ih =>
    by_cases hsel : e.1 = "Select Year"
    · rw [bestYearScan, List.findSome?_cons, if_pos hsel,
        List.find?_cons_of_neg _ (by simp [hsel])]
      exact ih
    · by_cases hin : (pyIn pattern e.1 || pyIn yp e.1) = true
      · rw [bestYearScan, List.findSome?_cons, if_neg hsel, if_pos hin,
          List.find?_cons_of_pos _ (by simp [hsel, hin])]
        rfl
      · rw [bestYearScan, List.findSome?_cons, if_neg hsel, if_neg hin,
          List.find?_cons_of_neg _ (by simp [hsel, hin])]
        exact ih

theorem lookupA_of_find?_keyed {c : String} {e0 : String × String} :
    ∀ {years : Dict}, years.find? (fun e => decide (e.1 ≠ c)) = some e0 →
      lookupA years e0.1 = some e0.2 := by
  intro years
  induction years with
  | nil => intro h; exact absurd h (by simp)
  | cons e t ih =>
    intro h
    by_cases hec : e.1 = c
    · rw [List.find?_cons_of_neg _ (by simp [hec])] at h
      have he0 : e0.1 ≠ c := by simpa using List.find?_some h
      rw [lookupA_cons, if_neg (fun hh : e.1 = e0.1 => he0 (hh ▸ hec))]
      exact ih h
    · rw [List.find?_cons_of_pos _ (by simp [hec])] at h
      injection h with he
      subst he
      rw [lookupA_cons, if_pos rfl]

/-! ## C1: the retrieval loop structure -/

theorem retrievalLoop_eq_map (r : String → String × String) (c : String → Bool)
    (l : List String) : retrievalLoop r c l = l.map (processLabel r c) := by
  induction l with
  | nil => rfl
  | cons yp t ih => simp [retrievalLoop, ih]

/-- C1: the retrieval loop produces exactly one outcome per requested fiscal
label, in the order requested; each outcome is determined by its own label
alone, so a capture failure on one label changes neither the count nor the
order nor the value of the outcomes of the other labels, and the loop
continues past every label unconditionally. -/
theorem c1_retrieval_loop_outcomes (resolveVals : String → String × String)
    (captureOk : String → Bool) (labels : List String) :
    (retrievalLoop resolveVals captureOk labels).length = labels.length ∧
    (∀ i : Nat, ∀ l : String, labels[i]? = some l →
      (retrievalLoop resolveVals captureOk labels)[i]? =
        some (processLabel resolveVals captureOk l)) ∧
    (∀ captureOk2 : String → Bool, ∀ bad : String,
      (∀ s : String, s ≠ bad → captureOk s = captureOk2 s) →
      ∀ i : Nat, ∀ l : String, labels[i]? = some l → l ≠ bad →
        (retrievalLoop resolveVals captureOk labels)[i]? =
          (retrievalLoop resolveVals captureOk2 labels)[i]?) := by
  refine ⟨?_, ?_, ?_⟩
  · rw [retrievalLoop_eq_map]; simp
  · intro i l hl
    rw [retrievalLoop_eq_map]
    simp [List.getElem?_map, hl]
  · intro captureOk2 bad hagree i l hl hlbad
    rw [retrievalLoop_eq_map, retrievalLoop_eq_map]
    simp only [List.getElem?_map, hl, Option.map_some]
    have hc : captureOk l = captureOk2 l := hagree l hlbad
    simp [processLabel, hc]

/-- Witness for C1 at concrete inputs: two capture environments differing
only on the label 2014-15 give identical outcomes at every other position of
the default year range. -/
theorem c1_retrieval_loop_outcomes_witness :
    (retrievalLoop (fun _ => ("p", "y")) (fun s => decide (s ≠ "2014-15"))
        year_range)[1]? =
      some (processLabel (fun _ => ("p", "y")) (fun s => decide (s ≠ "2014-15"))
        "2013-14") ∧
    (retrievalLoop (fun _ => ("p", "y")) (fun s => decide (s ≠ "2014-15"))
        year_range)[0]? =
      (retrievalLoop (fun _ => ("p", "y")) (fun _ => true) year_range)[0]? := by
  constructor
  · exact (c1_retrieval_loop_outcomes (fun _ => ("p", "y"))
      (fun s => decide (s ≠ "2014-15")) year_range).2.1 1 "2013-14" (by decide)
  · exact (c1_retrieval_loop_outcomes (fun _ => ("p", "y"))
      (fun s => decide (s ≠ "2014-15")) year_range).2.2 (fun _ => true) "2014-15"
      (by intro s hs; simp [hs]) 0 "2012-13" (by decide) (by decide)

/-! ## C7: timeout propagation policy -/

/-- C7: a bounded-wait timeout on any identity-establishing cascade field
aborts the whole run as an InteractionTimeout before any per-period
retrieval is attempted, while a capture timeout inside the per-period loop
is contained to its own fiscal label: that label gets a CaptureFailed
outcome and every requested label still receives an outcome. -/
theorem c7_timeout_propagation_policy (waitOk : String → Bool)
    (resolveVals : String → String × String) (captureOk : String → Bool)
    (yearRange : List String) :
    ((∃ f ∈ identityFields, waitOk f = false) →
      runWorkflow waitOk resolveVals captureOk yearRange =
        Except.error "InteractionTimeout") ∧
    (identityFields.all waitOk = true →
      runWorkflow waitOk resolveVals captureOk yearRange =
        Except.ok (retrievalLoop resolveVals captureOk yearRange) ∧
      (retrievalLoop resolveVals captureOk yearRange).length = yearRange.length ∧
      (∀ i : Nat, ∀ l : String, yearRange[i]? = some l → captureOk l = false →
        (pyTruthy (resolveVals l).1 && pyTruthy (resolveVals l).2) = true →
        (retrievalLoop resolveVals captureOk yearRange)[i]? =
          some Outcome.CaptureFailed)) := by
  constructor
  · rintro ⟨f, hf, hwf⟩
    unfold runWorkflow
    cases hall : identityFields.all waitOk with
    | false => rw [if_neg (by simp [hall])]
    | true => exact absurd (List.all_eq_true.mp hall f hf) (by simp [hwf])
  · intro hall
    refine ⟨?_, ?_, ?_⟩
    · unfold runWorkflow
      rw [if_pos (by simp [hall])]
    · rw [retrievalLoop_eq_map]
      simp
    · intro i l hl hc hres
      rw [retrievalLoop_eq_map]
      simp only [List.getElem?_map, hl, Option.map_some]
      simp [processLabel, hres, hc]

/-- Witness for C7: a failing wait on the village field aborts the run, and
with all identity fields committed, a capture failure on 2014-15 yields a
CaptureFailed outcome at its own position of the default year range. -/
theorem c7_timeout_propagation_policy_witness :
    runWorkflow (fun f => decide (f ≠ "village")) (fun _ => ("p", "y"))
        (fun _ => true) year_range = Except.error "InteractionTimeout" ∧
    (retrievalLoop (fun _ => ("p", "y")) (fun s => decide (s ≠ "2014-15"))
        year_range)[2]? = some Outcome.CaptureFailed := by
  constructor
  · exact (c7_timeout_propagation_policy (fun f => decide (f ≠ "village"))
      (fun _ => ("p", "y")) (fun _ => true) year_range).1
      ⟨"village", by decide, by decide⟩
  · exact ((c7_timeout_propagation_policy (fun _ => true) (fun _ => ("p", "y"))
      (fun s => decide (s ≠ "2014-15")) year_range).2 (by decide)).2.2 2 "2014-15"
      (by decide) (by decide) (by decide)

/-! ## C8: sink emission order and streaming -/

/-- C8: the per-run sink is invoked exactly once per successfully captured
document, strictly in the order of the requested fiscal labels (the emission
list is the capture-filtered label list in request order), the emissions of
a prefix of the labels are already final before the remaining labels are
processed (streaming, not buffering), and the outcome list is that of the
retrieval loop. -/
theorem c8_sink_emission_order (resolveVals : String → String × String)
    (captureOk : String → Bool) (capturedBytes : String → String)
    (labels l1 l2 : List String) :
    (retrievalLoopEmit resolveVals captureOk capturedBytes labels).2 =
      (labels.filter (fun yp =>
        decide (processLabel resolveVals captureOk yp = Outcome.Captured))).map
        (fun yp => (capturedBytes yp, yp)) ∧
    (retrievalLoopEmit resolveVals captureOk capturedBytes (l1 ++ l2)).2 =
      (retrievalLoopEmit resolveVals captureOk capturedBytes l1).2 ++
        (retrievalLoopEmit resolveVals captureOk capturedBytes l2).2 ∧
    (retrievalLoopEmit resolveVals captureOk capturedBytes labels).1 =
      retrievalLoop resolveVals captureOk labels := by
  refine ⟨?_, ?_, ?_⟩
  · induction labels with
    | nil => rfl
    | cons yp t ih =>
      by_cases hcap : processLabel resolveVals captureOk yp = Outcome.Captured
      · simp [retrievalLoopEmit, List.filter_cons, hcap, ih]
      · simp [retrievalLoopEmit, List.filter_cons, hcap, ih]
  · induction l1 with
    | nil => simp [retrievalLoopEmit]
    | cons yp t ih => simp [retrievalLoopEmit, ih]
  · induction labels with
    | nil => rfl
    | cons yp t ih => simp [retrievalLoopEmit, retrievalLoop, ih]

/-! ## C5: totality of the period-year resolver -/

theorem scraperTierPattern_nil (yp : String) (patterns : List String) (pm : Dict) :
    scraperTierPattern yp patterns pm [] = none := by
  unfold scraperTierPattern
  apply findSome?_none_of
  intro pattern _
  apply findSome?_none_of
  intro e _
  by_cases h1 : e.1 = "Select Period"
  · rw [if_pos h1]
  · rw [if_neg h1]
    by_cases h2 : pyIn pattern e.1 = true
    · rw [if_pos h2]
      rfl
    · rw [if_neg h2]

theorem scraperTierGeneral_nil (patterns : List String) (pm : Dict) :
    scraperTierGeneral patterns pm [] = none := by
  unfold scraperTierGeneral
  apply findSome?_none_of
  intro ptext _
  cases lookupA pm ptext with
  | none => rfl
  | some pv => rfl

theorem dpTierPattern_nil (yp : String) (patterns : List String) (pm : Dict) :
    dpTierPattern yp patterns pm [] = none := by
  unfold dpTierPattern
  apply findSome?_none_of
  intro pattern _
  apply findSome?_none_of
  intro e _
  rfl

theorem dpTierGeneral_nil (patterns : List String) (pm : Dict) :
    dpTierGeneral patterns pm [] = none := by
  unfold dpTierGeneral
  apply findSome?_none_of
  intro ptext _
  cases lookupA pm ptext with
  | none => rfl
  | some pv => rfl

/-- C5 counterexample: on an index with no period or year data at all, the
resolver does not report not-found; it returns the hard-coded constant pair,
whose components are both truthy, so the caller proceeds to a capture
attempt instead of recording a skip. -/
theorem c5_empty_index_counterexample :
    scraper_get_values_for_year_period "2014-15" [] [] = ("15-164943", "113") ∧
    pyTruthy "15-164943" = true ∧ pyTruthy "113" = true := by
  constructor
  · decide
  · constructor <;> decide

/-- C5 amended: both period-year resolvers are total functions that always
yield a concrete (period value, year value) pair and never report
not-found; in particular, when the period-to-year structure is empty (no
period/year data), the result is the configured constant pair, reached as
the last tier. -/
theorem c5_resolver_total_amended (yp : String) (pm ym : Dict) :
    scraper_get_values_for_year_period yp pm [] = ("15-164943", "113") ∧
    dp_get_values_for_year_period yp pm ym [] = ("15-164943", "113") := by
  constructor
  · simp only [scraper_get_values_for_year_period, scraperTierPattern_nil,
      scraperTierGeneral_nil]
    rfl
  · simp only [dp_get_values_for_year_period, dpTierPattern_nil, dpTierGeneral_nil]
    rfl

/-! ## C6: determinism and cache round trip -/

theorem decodeDict_encodeDict (d : Dict) : decodeDict (encodeDict d) = d := by
  induction d with
  | nil => rfl
  | cons e t ih =>
    simp only [encodeDict, decodeDict, List.map_cons, List.filterMap_cons] at ih ⊢
    rw [ih]

theorem decodePtoY_encodePtoY (m : PtoY) : decodePtoY (encodePtoY m) = m := by
  induction m with
  | nil => rfl
  | cons e t ih =>
    simp only [encodePtoY, decodePtoY, List.map_cons] at ih ⊢
    rw [decodeDict_encodeDict]
    simp only [List.map_map] at ih ⊢
    rw [ih]

theorem loadMappings_saveMappings (pm ym : Dict) (ptoy : PtoY) :
    loadMappings (saveMappings pm ym ptoy) = (pm, ym, ptoy) := by
  unfold loadMappings saveMappings jGet
  simp [lookupA_cons, decodeDict_encodeDict, decodePtoY_encodePtoY]

/-- C6: period-year resolution is a pure function of the index and the
fiscal label: repeated calls on the same index agree, and resolving against
the index obtained by saving the three mappings to the JSON snapshot and
reloading them gives the same pair as resolving against the original
index. -/
theorem c6_resolution_pure_roundtrip (yp : String) (pm ym : Dict) (ptoy : PtoY) :
    scraper_get_values_for_year_period yp pm ptoy =
      scraper_get_values_for_year_period yp pm ptoy ∧
    scraper_get_values_for_year_period yp
        (loadMappings (saveMappings pm ym ptoy)).1
        (loadMappings (saveMappings pm ym ptoy)).2.2 =
      scraper_get_values_for_year_period yp pm ptoy := by
  refine ⟨rfl, ?_⟩
  rw [loadMappings_saveMappings]

/-! ## C2: the fuzzy resolver is total on nonempty option sets -/

theorem mem_normEntryInsert {acc : NormMap} {t v : String} {x : String × (String × String)}
    (h : x ∈ normEntryInsert acc t v) : x.2 = (t, v) ∨ x ∈ acc := by
  simp only [normEntryInsert] at h
  by_cases hg : (pyTruthy (simplify (pyStrip (pyLower t))) &&
      decide (simplify (pyStrip (pyLower t)) ≠ pyStrip (pyLower t))) = true
  · rw [if_pos hg] at h
    cases mem_insertA h with
    | inl heq => exact Or.inl (by rw [heq])
    | inr hmem =>
      cases mem_insertA hmem with
      | inl heq => exact Or.inl (by rw [heq])
      | inr hmem2 => exact Or.inr hmem2
  · rw [if_neg hg] at h
    cases mem_insertA h with
    | inl heq => exact Or.inl (by rw [heq])
    | inr hmem => exact Or.inr hmem

theorem mem_foldl_normInsert {sset : Dict} :
    ∀ (l : Dict) (acc : NormMap),
      (∀ y ∈ acc, y.2 ∈ sset) → (∀ e ∈ l, e ∈ sset) →
      ∀ x ∈ l.foldl (fun a e => normEntryInsert a e.1 e.2) acc, x.2 ∈ sset := by
  intro l
  induction l with
  | nil => intro acc hacc _ x hx; exact hacc x hx
  | cons e t ih =>
    intro acc hacc hl x hx
    rw [List.foldl_cons] at hx
    refine ih (normEntryInsert acc e.1 e.2) ?_
      (fun y hy => hl y (List.mem_cons_of_mem _ hy)) x hx
    intro y hy
    cases mem_normEntryInsert hy with
    | inl heq =>
      rw [heq]
      exact hl e (List.mem_cons_self _ _)
    | inr hmem => exact hacc y hmem

theorem mem_buildNormalizedOptions {options : Dict} {x : String × (String × String)}
    (h : x ∈ buildNormalizedOptions options) : x.2 ∈ options :=
  mem_foldl_normInsert options [] (by simp) (fun _ he => he) x h

theorem foldl_best_provenance {γ : Type}
    (step : (Option γ × Nat) → (String × γ) → (Option γ × Nat))
    (hstep : ∀ b e, (step b e).1 = b.1 ∨ (step b e).1 = some e.2) :
    ∀ (l : List (String × γ)) (acc : Option γ × Nat),
      (l.foldl step acc).1 = acc.1 ∨ ∃ e ∈ l, (l.foldl step acc).1 = some e.2 := by
  intro l
  induction l with
  | nil => intro acc; exact Or.inl rfl
  | cons e t ih =>
    intro acc
    rw [List.foldl_cons]
    cases ih (step acc e) with
    | inl h =>
      cases hstep acc e with
      | inl h2 => exact Or.inl (h.trans h2)
      | inr h2 => exact Or.inr ⟨e, List.mem_cons_self _ _, h.trans h2⟩
    | inr h =>
      obtain ⟨e2, he2, hh⟩ := h
      exact Or.inr ⟨e2, List.mem_cons_of_mem _ he2, hh⟩

theorem tier3Scan_provenance {tl : String} {no : NormMap} {p : String × String}
    (h : tier3Scan tl no = some p) : ∃ e ∈ no, e.2 = p := by
  unfold tier3Scan at h
  have hprov := foldl_best_provenance
    (fun best e =>
      if pyIn tl e.1 || pyIn e.1 tl then
        if e.1.length > best.2 then (some e.2, e.1.length) else best
      else best)
    (by
      intro b e
      by_cases h1 : (pyIn tl e.1 || pyIn e.1 tl) = true
      · by_cases h2 : e.1.length > b.2
        · simp [h1, h2]
        · simp [h1, h2]
      · simp [h1])
    no ((none : Option (String × String)), 0)
  cases hprov with
  | inl hnone => rw [h] at hnone; exact absurd hnone (by simp)
  | inr hex =>
    obtain ⟨e, he, hh⟩ := hex
    rw [h] at hh
    exact ⟨e, he, by injection hh.symm⟩

theorem tier4Scan_provenance {tl : String} {no : NormMap} {p : String × String}
    (h : tier4Scan tl no = some p) : ∃ e ∈ no, e.2 = p := by
  unfold tier4Scan at h
  have hprov := foldl_best_provenance
    (fun best e =>
      if sharedWordCount tl e.1 > best.2 then (some e.2, sharedWordCount tl e.1) else best)
    (by
      intro b e
      by_cases h2 : sharedWordCount tl e.1 > b.2
      · simp [h2]
      · simp [h2])
    no ((none : Option (String × String)), 0)
  cases hprov with
  | inl hnone => rw [h] at hnone; exact absurd hnone (by simp)
  | inr hex =>
    obtain ⟨e, he, hh⟩ := hex
    rw [h] at hh
    exact ⟨e, he, by injection hh.symm⟩

theorem find_best_match_cons_spec (target : String) (first : String × String)
    (rest : Dict) :
    ∃ v, find_best_match target (first :: rest) = some v ∧
      v ∈ (first :: rest).map Prod.snd := by
  simp only [find_best_match]
  cases h1 : lookupA (buildNormalizedOptions (first :: rest)) (pyStrip (pyLower target)) with
  | some p =>
    exact ⟨p.2, rfl, List.mem_map_of_mem Prod.snd (mem_buildNormalizedOptions (lookupA_mem h1))⟩
  | none =>
    cases h2 : lookupA (buildNormalizedOptions (first :: rest))
        (simplify (pyStrip (pyLower target))) with
    | some p =>
      exact ⟨p.2, rfl, List.mem_map_of_mem Prod.snd (mem_buildNormalizedOptions (lookupA_mem h2))⟩
    | none =>
      cases h3 : tier3Scan (pyStrip (pyLower target)) (buildNormalizedOptions (first :: rest)) with
      | some p =>
        obtain ⟨e, he, hep⟩ := tier3Scan_provenance h3
        exact ⟨p.2, rfl,
          List.mem_map_of_mem Prod.snd (hep ▸ mem_buildNormalizedOptions he)⟩
      | none =>
        cases h4 : tier4Scan (pyStrip (pyLower target)) (buildNormalizedOptions (first :: rest)) with
        | some p =>
          obtain ⟨e, he, hep⟩ := tier4Scan_provenance h4
          exact ⟨p.2, rfl,
            List.mem_map_of_mem Prod.snd (hep ▸ mem_buildNormalizedOptions he)⟩
        | none =>
          exact ⟨first.2, rfl, List.mem_map_of_mem Prod.snd (List.mem_cons_self _ _)⟩

/-- C2: the fuzzy resolver signals failure (none) exactly on the empty
option set; on every nonempty option set it returns a value drawn from the
option set, and when no matching tier fires it falls back to the value of
the first entry in discovery order. -/
theorem c2_fuzzy_resolver_guarantees (target : String) (options : Dict) :
    find_best_match target ([] : Dict) = none ∧
    (options ≠ [] → ∃ v, find_best_match target options = some v ∧
      v ∈ options.map Prod.snd) ∧
    (∀ first : String × String, ∀ rest : Dict, options = first :: rest →
      lookupA (buildNormalizedOptions options) (pyStrip (pyLower target)) = none →
      lookupA (buildNormalizedOptions options) (simplify (pyStrip (pyLower target))) = none →
      tier3Scan (pyStrip (pyLower target)) (buildNormalizedOptions options) = none →
      tier4Scan (pyStrip (pyLower target)) (buildNormalizedOptions options) = none →
      find_best_match target options = some first.2) := by
  refine ⟨rfl, ?_, ?_⟩
  · intro hne
    match options, hne with
    | first :: rest, _ => exact find_best_match_cons_spec target first rest
  · intro first rest heq h1 h2 h3 h4
    subst heq
    simp only [find_best_match, h1, h2, h3, h4]

/-- Witness for C2: on the two-district option set from the specification
the resolver returns a value of the set, and on a one-entry set with no
matching tier it returns the first value. -/
theorem c2_fuzzy_resolver_guarantees_witness :
    (∃ v, find_best_match "Bangalore Rural"
        [("Bangalore Rural District", "21"), ("Bangalore Urban District", "5")] = some v ∧
      v ∈ [("Bangalore Rural District", "21"), ("Bangalore Urban District", "5")].map
        Prod.snd) ∧
    find_best_match "zzz" [("a", "1")] = some ("a", "1").2 := by
  constructor
  · exact (c2_fuzzy_resolver_guarantees "Bangalore Rural"
      [("Bangalore Rural District", "21"), ("Bangalore Urban District", "5")]).2.1
      (by decide)
  · exact (c2_fuzzy_resolver_guarantees "zzz" [("a", "1")]).2.2 ("a", "1") []
      rfl (by decide) (by decide) (by decide) (by decide)

/-! ## C9: placeholder filtering in the option-set loader -/

theorem get_dropdown_options_aux :
    ∀ (raw : List RawOption) (acc : Dict), (∀ x ∈ acc, x.2 ≠ "0" ∧ x.2 ≠ "") →
      ∀ x ∈ raw.foldl
        (fun acc o =>
          match o.val with
          | some v => if pyTruthy v && v ≠ "0" then insertA acc (optionText o) v else acc
          | none => acc)
        acc, x.2 ≠ "0" ∧ x.2 ≠ "" := by
  intro raw
  induction raw with
  | nil => intro acc hacc x hx; exact hacc x hx
  | cons o t ih =>
    intro acc hacc x hx
    rw [List.foldl_cons] at hx
    cases ho : o.val with
    | none =>
      rw [ho] at hx
      exact ih acc hacc x hx
    | some v =>
      rw [ho] at hx
      dsimp only at hx
      by_cases hv : (pyTruthy v && decide (v ≠ "0")) = true
      · rw [if_pos hv] at hx
        refine ih (insertA acc (optionText o) v) ?_ x hx
        intro y hy
        cases mem_insertA hy with
        | inl heq =>
          rw [heq]
          have hvv := hv
          simp only [Bool.and_eq_true, decide_eq_true_eq, pyTruthy] at hvv
          exact ⟨hvv.2, hvv.1⟩
        | inr hmem => exact hacc y hmem
      · rw [if_neg hv] at hx
        exact ih acc hacc x hx

/-- C9 counterexample: an external option whose label is a Select
placeholder but whose value attribute is neither empty nor "0" is retained
by the option-set loader, so the built option set is not free of
Select-labelled placeholder entries. -/
theorem c9_select_label_counterexample :
    get_dropdown_options [⟨some "7", some "Select District"⟩] =
      [("Select District", "7")] ∧
    pyIn "Select" "Select District" = true := by
  constructor <;> decide

/-- C9 amended: every option set built by the loader excludes the entries
whose value attribute is "0" or empty (the filter is on values only; a
placeholder label is excluded only when its value is "0" or missing). -/
theorem c9_values_filtered_amended (raw : List RawOption) :
    ∀ e ∈ get_dropdown_options raw, e.2 ≠ "0" ∧ e.2 ≠ "" := by
  intro e he
  exact get_dropdown_options_aux raw [] (by simp) e he

/-- Witness for C9: a kept entry of a concretely loaded option set has a
value that is neither "0" nor empty. -/
theorem c9_values_filtered_amended_witness :
    ("Devanahalli", "61") ∈ get_dropdown_options
      [⟨some "0", some "Select Village"⟩, ⟨some "61", some "Devanahalli"⟩] ∧
    ("Devanahalli", "61").2 ≠ "0" ∧ ("Devanahalli", "61").2 ≠ "" := by
  refine ⟨by decide, ?_⟩
  exact c9_values_filtered_amended
    [⟨some "0", some "Select Village"⟩, ⟨some "61", some "Devanahalli"⟩]
    ("Devanahalli", "61") (by decide)

/-! ## C3: exact match versus containment -/

theorem lookupA_buildNormalizedOptions_unique (tl : String) :
    ∀ (l : Dict) (acc : NormMap) (t v : String),
      pyStrip (pyLower t) = tl →
      (∀ e ∈ l,
        (pyStrip (pyLower e.1) = tl → e = (t, v)) ∧
        ((pyTruthy (simplify (pyStrip (pyLower e.1))) &&
            decide (simplify (pyStrip (pyLower e.1)) ≠ pyStrip (pyLower e.1))) = true →
          simplify (pyStrip (pyLower e.1)) = tl → e = (t, v))) →
      (lookupA acc tl = none ∧ (t, v) ∈ l ∨ lookupA acc tl = some (t, v)) →
      lookupA (l.foldl (fun a e => normEntryInsert a e.1 e.2) acc) tl = some (t, v) := by
  intro l
  induction l with
  | nil =>
    intro acc t v _ _ hdis
    cases hdis with
    | inl h => exact absurd h.2 (by simp)
    | inr h => exact h
  | cons e rest ih =>
    intro acc t v ht hcond hdis
    rw [List.foldl_cons]
    have hcond_rest := fun x hx => hcond x (List.mem_cons_of_mem _ hx)
    have hcond_e := hcond e (List.mem_cons_self _ _)
    obtain ⟨nt, hntdef⟩ : ∃ x, pyStrip (pyLower e.1) = x := ⟨_, rfl⟩
    obtain ⟨st, hstdef⟩ : ∃ x, simplify nt = x := ⟨_, rfl⟩
    rw [hntdef] at hcond_e
    rw [hstdef] at hcond_e
    have hins : normEntryInsert acc e.1 e.2 =
        (if (pyTruthy st && decide (st ≠ nt)) = true then
          insertA (insertA acc nt (e.1, e.2)) st (e.1, e.2)
        else insertA acc nt (e.1, e.2)) := by
      simp only [normEntryInsert, hntdef, hstdef]
    by_cases hnt : nt = tl
    · have he : e = (t, v) := hcond_e.1 hnt
      have hpair : (e.1, e.2) = (t, v) := by rw [← he]
      have hinner : lookupA (insertA acc nt (e.1, e.2)) tl = some (t, v) := by
        rw [← hnt, lookupA_insertA_self, hpair]
      refine ih (normEntryInsert acc e.1 e.2) t v ht hcond_rest (Or.inr ?_)
      rw [hins]
      by_cases hg : (pyTruthy st && decide (st ≠ nt)) = true
      · rw [if_pos hg]
        have hstne : st ≠ nt := by
          rw [Bool.and_eq_true, decide_eq_true_eq] at hg
          exact hg.2
        have htlst : tl ≠ st := by
          rw [← hnt]
          exact fun hh => hstne hh.symm
        rw [lookupA_insertA_ne (insertA acc nt (e.1, e.2)) st tl (e.1, e.2) htlst]
        exact hinner
      · rw [if_neg hg]
        exact hinner
    · have hinner : lookupA (insertA acc nt (e.1, e.2)) tl = lookupA acc tl :=
        lookupA_insertA_ne acc nt tl (e.1, e.2) (fun hh => hnt hh.symm)
      have hetv : e ≠ (t, v) := by
        intro hcontra
        apply hnt
        rw [← hntdef, hcontra]
        exact ht
      by_cases hg : (pyTruthy st && decide (st ≠ nt)) = true
      · by_cases hst : st = tl
        · have he : e = (t, v) := hcond_e.2 hg hst
          exact absurd he hetv
        · have hacc2 : lookupA (normEntryInsert acc e.1 e.2) tl = lookupA acc tl := by
            rw [hins, if_pos hg,
              lookupA_insertA_ne (insertA acc nt (e.1, e.2)) st tl (e.1, e.2)
                (fun hh => hst hh.symm)]
            exact hinner
          refine ih (normEntryInsert acc e.1 e.2) t v ht hcond_rest ?_
          cases hdis with
          | inl h =>
            refine Or.inl ⟨by rw [hacc2]; exact h.1, ?_⟩
            cases List.mem_cons.mp h.2 with
            | inl hh => exact absurd hh.symm hetv
            | inr hh => exact hh
          | inr h => exact Or.inr (by rw [hacc2]; exact h)
      · have hacc2 : lookupA (normEntryInsert acc e.1 e.2) tl = lookupA acc tl := by
          rw [hins, if_neg hg]
          exact hinner
        refine ih (normEntryInsert acc e.1 e.2) t v ht hcond_rest ?_
        cases hdis with
        | inl h =>
          refine Or.inl ⟨by rw [hacc2]; exact h.1, ?_⟩
          cases List.mem_cons.mp h.2 with
          | inl hh => exact absurd hh.symm hetv
          | inr hh => exact hh
        | inr h => exact Or.inr (by rw [hacc2]; exact h)

/-- C3 counterexample: the target Bangalore Rural matches the label
Bangalore Rural exactly (value "21"), and the longer label Bangalore Rural
District (value "5") contains the target as a substring; the resolver
returns "5", not the exact-match value "21", because the later option
overwrites the normalized key of the exact match with its own simplified
form before tier 1 looks it up. -/
theorem c3_exact_match_counterexample :
    find_best_match "Bangalore Rural"
      [("Bangalore Rural", "21"), ("Bangalore Rural District", "5")] = some "5" ∧
    find_best_match "Bangalore Rural"
      [("Bangalore Rural", "21"), ("Bangalore Rural District", "5")] ≠ some "21" := by
  constructor <;> decide

/-- C3 amended: tier 1 runs before tier 3, but its lookup table also holds
each option under its noise-word-stripped simplified form, a later insertion
overwriting an earlier one.  When some label equals the target exactly
(case-insensitive) and it is the only option whose normalized or simplified
form coincides with the normalized target, the resolver returns the value
of that exactly matching label, even when a different, longer label
contains the target as a substring. -/
theorem c3_exact_match_amended (target : String) (options : Dict) (t v : String)
    (hmem : (t, v) ∈ options)
    (hexact : pyStrip (pyLower t) = pyStrip (pyLower target))
    (huniq : ∀ e ∈ options,
      (pyStrip (pyLower e.1) = pyStrip (pyLower target) → e = (t, v)) ∧
      ((pyTruthy (simplify (pyStrip (pyLower e.1))) &&
          decide (simplify (pyStrip (pyLower e.1)) ≠ pyStrip (pyLower e.1))) = true →
        simplify (pyStrip (pyLower e.1)) = pyStrip (pyLower target) → e = (t, v))) :
    find_best_match target options = some v := by
  have hlk : lookupA (buildNormalizedOptions options) (pyStrip (pyLower target)) =
      some (t, v) :=
    lookupA_buildNormalizedOptions_unique (pyStrip (pyLower target)) options [] t v
      hexact huniq (Or.inl ⟨rfl, hmem⟩)
  cases options with
  | nil => exact absurd hmem (by simp)
  | cons first rest => simp only [find_best_match, hlk]

/-- Witness for C3: the exact label Kasaba (value "2") wins against the
longer containing label Kasaba Extension (value "9"). -/
theorem c3_exact_match_amended_witness :
    pyIn "kasaba" "kasaba extension" = true ∧
    find_best_match "Kasaba" [("Kasaba", "2"), ("Kasaba Extension", "9")] = some "2" := by
  constructor
  · decide
  · exact c3_exact_match_amended "Kasaba" [("Kasaba", "2"), ("Kasaba Extension", "9")]
      "Kasaba" "2" (by decide) (by decide) (by decide)

/-! ## C4: resolution of the fiscal label 2014-15 -/

/-- C4: when the period dictionary has a non-placeholder period whose label
contains 2014-2015 (the first period in discovery order with that
property), and that period has a non-placeholder year whose key is truthy
and whose values are truthy, resolving the fiscal label 2014-15 returns
that period value, paired with the value of a year whose label contains
2014-15 or 2014-2015 when such a year exists under that period, and
otherwise with that period first non-placeholder year in discovery
order. -/
theorem c4_fiscal_2014_15_resolution (pm : Dict) (ptoy : PtoY)
    (pe : String × String) (years : Dict) (fy : String × String)
    (hp : pm.find? (fun e => decide (e.1 ≠ "Select Period") && pyIn "2014-2015" e.1) =
      some pe)
    (hy : lookupA ptoy pe.2 = some years)
    (hfy : years.find? (fun e => decide (e.1 ≠ "Select Year")) = some fy)
    (hfk : pyTruthy fy.1 = true)
    (hvals : ∀ e ∈ years, e.2 ≠ "") :
    (scraper_get_values_for_year_period "2014-15" pm ptoy).1 = pe.2 ∧
    ((∃ my, years.find? (fun e => decide (e.1 ≠ "Select Year") &&
        (pyIn "2014-2015" e.1 || pyIn "2014-15" e.1)) = some my ∧
      (scraper_get_values_for_year_period "2014-15" pm ptoy).2 = my.2) ∨
     (years.find? (fun e => decide (e.1 ≠ "Select Year") &&
        (pyIn "2014-2015" e.1 || pyIn "2014-15" e.1)) = none ∧
      (scraper_get_values_for_year_period "2014-15" pm ptoy).2 = fy.2)) := by
  have hpt := List.find?_some hp
  rw [Bool.and_eq_true, decide_eq_true_eq] at hpt
  have hynil : years.isEmpty = false := by
    cases years with
    | nil => simp at hfy
    | cons a b => rfl
  have hcompat : ∀ x ∈ pm,
      (decide (x.1 ≠ "Select Period") && pyIn "2014-2015" x.1) = false →
      (if x.1 = "Select Period" then none
       else if pyIn "2014-2015" x.1 then
         scraperPeriodBody "2014-2015" "2014-15" ptoy x.2
       else none) = none := by
    intro x _ hx
    by_cases h1 : x.1 = "Select Period"
    · rw [if_pos h1]
    · rw [if_neg h1]
      rw [Bool.and_eq_false_iff] at hx
      cases hx with
      | inl hh => exact absurd hh (by simp [h1])
      | inr hh => rw [if_neg (by simp [hh])]
  have hfirstpair : scraperFirstYearPair pe.2 years = some (pe.2, fy.2) := by
    unfold scraperFirstYearPair
    rw [hfy]
    dsimp only
    rw [if_pos hfk, lookupA_of_find?_keyed hfy]
    rfl
  cases hmatch : years.find? (fun e => decide (e.1 ≠ "Select Year") &&
      (pyIn "2014-2015" e.1 || pyIn "2014-15" e.1)) with
  | some my =>
    have hmy_mem := List.mem_of_find?_eq_some hmatch
    have hmyv : pyTruthy my.2 = true := by
      have := hvals my hmy_mem
      simp [pyTruthy, this]
    have hbody : scraperPeriodBody "2014-2015" "2014-15" ptoy pe.2 =
        some (pe.2, my.2) := by
      unfold scraperPeriodBody
      rw [hy]
      dsimp only
      rw [if_neg (by simp [hynil]), bestYearScan_eq_find?, hmatch]
      show (if pyTruthy my.2 = true then some (pe.2, my.2)
        else scraperFirstYearPair pe.2 years) = some (pe.2, my.2)
      rw [if_pos hmyv]
    have hfa : (if pe.1 = "Select Period" then none
        else if pyIn "2014-2015" pe.1 then
          scraperPeriodBody "2014-2015" "2014-15" ptoy pe.2
        else none) = some (pe.2, my.2) := by
      rw [if_neg hpt.1, if_pos hpt.2]
      exact hbody
    have hinner := findSome?_of_find? hcompat hp hfa
    have hres : scraper_get_values_for_year_period "2014-15" pm ptoy = (pe.2, my.2) := by
      simp only [scraper_get_values_for_year_period]
      have hpat : patternsFor "2014-15" = ["2014-2015", "2014-15"] := by decide
      rw [hpat]
      unfold scraperTierPattern
      rw [List.findSome?_cons]
      rw [hinner]
    rw [hres]
    exact ⟨rfl, Or.inl ⟨my, rfl, rfl⟩⟩
  | none =>
    have hbody : scraperPeriodBody "2014-2015" "2014-15" ptoy pe.2 =
        some (pe.2, fy.2) := by
      unfold scraperPeriodBody
      rw [hy]
      dsimp only
      rw [if_neg (by simp [hynil]), bestYearScan_eq_find?, hmatch]
      exact hfirstpair
    have hfa : (if pe.1 = "Select Period" then none
        else if pyIn "2014-2015" pe.1 then
          scraperPeriodBody "2014-2015" "2014-15" ptoy pe.2
        else none) = some (pe.2, fy.2) := by
      rw [if_neg hpt.1, if_pos hpt.2]
      exact hbody
    have hinner := findSome?_of_find? hcompat hp hfa
    have hres : scraper_get_values_for_year_period "2014-15" pm ptoy = (pe.2, fy.2) := by
      simp only [scraper_get_values_for_year_period]
      have hpat : patternsFor "2014-15" = ["2014-2015", "2014-15"] := by decide
      rw [hpat]
      unfold scraperTierPattern
      rw [List.findSome?_cons]
      rw [hinner]
    rw [hres]
    exact ⟨rfl, Or.inr ⟨rfl, rfl⟩⟩

/-- Witness for C4 at a concrete index: the period labelled with 2014-2015
is selected together with its year labelled 2014-15; the also-required
no-matching-year branch is covered by the amended statement disjunction. -/
theorem c4_fiscal_2014_15_resolution_witness :
    (scraper_get_values_for_year_period "2014-15"
      [("Select Period", "0"), ("From 2014-2015 To 2015", "p7")]
      [("p7", [("Select Year", "0"), ("1999", "y9"), ("2014-15", "y3")])]).1 = "p7" ∧
    ((∃ my, [("Select Year", "0"), ("1999", "y9"), ("2014-15", "y3")].find?
        (fun e => decide (e.1 ≠ "Select Year") &&
          (pyIn "2014-2015" e.1 || pyIn "2014-15" e.1)) = some my ∧
      (scraper_get_values_for_year_period "2014-15"
        [("Select Period", "0"), ("From 2014-2015 To 2015", "p7")]
        [("p7", [("Select Year", "0"), ("1999", "y9"), ("2014-15", "y3")])]).2 = my.2) ∨
     ([("Select Year", "0"), ("1999", "y9"), ("2014-15", "y3")].find?
        (fun e => decide (e.1 ≠ "Select Year") &&
          (pyIn "2014-2015" e.1 || pyIn "2014-15" e.1)) = none ∧
      (scraper_get_values_for_year_period "2014-15"
        [("Select Period", "0"), ("From 2014-2015 To 2015", "p7")]
        [("p7", [("Select Year", "0"), ("1999", "y9"), ("2014-15", "y3")])]).2 =
        ("1999", "y9").2)) :=
  c4_fiscal_2014_15_resolution
    [("Select Period", "0"), ("From 2014-2015 To 2015", "p7")]
    [("p7", [("Select Year", "0"), ("1999", "y9"), ("2014-15", "y3")])]
    ("From 2014-2015 To 2015", "p7")
    [("Select Year", "0"), ("1999", "y9"), ("2014-15", "y3")]
    ("1999", "y9")
    (by decide) (by decide) (by decide) (by decide) (by decide)

/-! ## C10: the two period-year resolvers -/

theorem find?_eq_head_filter {α : Type} (p : α → Bool) (l : List α) :
    l.find? p = (l.filter p).head? := by
  induction l with
  | nil => rfl
  | cons a t ih =>
    by_cases hp : p a
    · rw [List.find?_cons_of_pos _ hp, List.filter_cons_of_pos hp, List.head?_cons]
    · rw [List.find?_cons_of_neg _ (by simpa using hp),
        List.filter_cons_of_neg (by simpa using hp)]
      exact ih

theorem dict_comp_eq_filter {α : Type} (p : String × α → Bool) (l : List (String × α))
    (h : (l.map Prod.fst).Nodup) :
    l.foldl (fun acc e => if p e then insertA acc e.1 e.2 else acc) [] = l.filter p := by
  have := foldl_insertA_filterB p l [] h (fun _ _ => rfl)
  simpa using this

theorem dpMatchingPeriods_eq (pattern : String) (pm : Dict)
    (hpm : (pm.map Prod.fst).Nodup) :
    dpMatchingPeriods pattern pm =
      pm.filter (fun e => decide (e.1 ≠ "Select Period") && pyIn pattern e.1) := by
  unfold dpMatchingPeriods
  rw [List.foldl_ext _
    (fun acc (e : String × String) =>
      if (decide (e.1 ≠ "Select Period") && pyIn pattern e.1) = true then
        insertA acc e.1 e.2
      else acc)
    [] (by
      intro acc e _
      by_cases h1 : e.1 = "Select Period"
      · simp [h1]
      · by_cases h2 : pyIn pattern e.1 = true
        · simp [h1, h2]
        · simp [h1, h2])]
  exact dict_comp_eq_filter _ pm hpm

theorem dpFilterYears_eq (years : Dict) (hnd : (years.map Prod.fst).Nodup)
    (hsel : ∀ e ∈ years, e.1 ≠ "Select Year") : dpFilterYears years = years := by
  unfold dpFilterYears
  rw [List.foldl_ext _
    (fun acc (e : String × String) =>
      if decide (e.1 ≠ "Select Year") = true then insertA acc e.1 e.2 else acc)
    [] (by
      intro acc e _
      by_cases h1 : e.1 = "Select Year"
      · simp [h1]
      · simp [h1])]
  rw [dict_comp_eq_filter _ years hnd]
  exact List.filter_eq_self.mpr (fun e he => by simp [hsel e he])

theorem dpFallbackYears_eq (years : Dict) (hnd : (years.map Prod.fst).Nodup)
    (hsel : ∀ e ∈ years, e.1 ≠ "Select Year") :
    dpFallbackYears years = years.filter (fun ye => decide (ye.2 ≠ "0")) := by
  unfold dpFallbackYears
  rw [List.foldl_ext _
    (fun acc (e : String × String) =>
      if (decide (e.1 ≠ "Select Year") && decide (e.2 ≠ "0")) = true then
        insertA acc e.1 e.2
      else acc)
    [] (by
      intro acc e _
      by_cases h1 : e.1 = "Select Year"
      · simp [h1]
      · by_cases h2 : e.2 = "0"
        · simp [h1, h2]
        · simp [h1, h2])]
  rw [dict_comp_eq_filter _ years hnd]
  exact List.filter_congr (fun e he => by simp [hsel e he])

theorem scraperPeriodBody_eq_dp (pattern yp : String) (ptoy : PtoY) (pv : String)
    (hY : ∀ pe ∈ ptoy, (pe.2.map Prod.fst).Nodup ∧
      ∀ ye ∈ pe.2, ye.1 ≠ "Select Year" ∧ ye.1 ≠ "" ∧ ye.2 ≠ "") :
    scraperPeriodBody pattern yp ptoy pv = dpPeriodBody pattern yp ptoy pv := by
  unfold scraperPeriodBody dpPeriodBody
  cases hl : lookupA ptoy pv with
  | none => rfl
  | some years =>
    dsimp only
    have hys := hY (pv, years) (lookupA_mem hl)
    by_cases hempty : years.isEmpty = true
    · rw [if_pos hempty, if_pos hempty]
    · rw [if_neg hempty, if_neg hempty]
      cases hbest : bestYearScan pattern yp years with
      | some y =>
        rw [bestYearScan_eq_find?] at hbest
        cases hfind : years.find? (fun e => decide (e.1 ≠ "Select Year") &&
            (pyIn pattern e.1 || pyIn yp e.1)) with
        | none => rw [hfind] at hbest; exact absurd hbest (by simp)
        | some my =>
          rw [hfind] at hbest
          have hbest : my.2 = y := by simpa using hbest
          have hmymem := List.mem_of_find?_eq_some hfind
          have hyv : pyTruthy y = true := by
            have := (hys.2 my hmymem).2.2
            simp [pyTruthy, ← hbest, this]
          simp [hyv]
      | none =>
        cases years with
        | nil => exact absurd rfl hempty
        | cons y0 yt =>
          have hy0 : y0.1 ≠ "Select Year" := (hys.2 y0 (List.mem_cons_self _ _)).1
          have hfind0 : (y0 :: yt).find? (fun e => decide (e.1 ≠ "Select Year")) =
              some y0 := List.find?_cons_of_pos _ (by simp [hy0])
          have h1 : scraperFirstYearPair pv (y0 :: yt) = some (pv, y0.2) := by
            unfold scraperFirstYearPair
            rw [hfind0]
            show (if pyTruthy y0.1 = true then
                Option.map (fun v => (pv, v)) (lookupA (y0 :: yt) y0.1)
              else none) = some (pv, y0.2)
            rw [if_pos (by simp [pyTruthy, (hys.2 y0 (List.mem_cons_self _ _)).2.1]),
              lookupA_cons, if_pos rfl]
            rfl
          rw [h1, dpFilterYears_eq _ hys.1 (fun e he => (hys.2 e he).1)]

theorem scraperTierPattern_eq_dp (yp : String) (patterns : List String) (pm : Dict)
    (ptoy : PtoY) (hpm : (pm.map Prod.fst).Nodup)
    (hY : ∀ pe ∈ ptoy, (pe.2.map Prod.fst).Nodup ∧
      ∀ ye ∈ pe.2, ye.1 ≠ "Select Year" ∧ ye.1 ≠ "" ∧ ye.2 ≠ "") :
    scraperTierPattern yp patterns pm ptoy = dpTierPattern yp patterns pm ptoy := by
  unfold scraperTierPattern dpTierPattern
  apply findSome?_congr_fun
  intro pattern _
  rw [dpMatchingPeriods_eq pattern pm hpm, findSome?_filter]
  apply findSome?_congr_fun
  intro e _
  by_cases h1 : e.1 = "Select Period"
  · rw [if_pos h1, if_neg (by simp [h1])]
  · by_cases h2 : pyIn pattern e.1 = true
    · rw [if_neg h1, if_pos h2, if_pos (by simp [h1, h2])]
      exact scraperPeriodBody_eq_dp pattern yp ptoy e.2 hY
    · rw [if_neg h1, if_neg h2, if_neg (by simp [h1, h2])]

theorem scraperTierGeneral_eq_dp (patterns : List String) (pm : Dict) (ptoy : PtoY)
    (hY : ∀ pe ∈ ptoy, (pe.2.map Prod.fst).Nodup ∧
      ∀ ye ∈ pe.2, ye.1 ≠ "Select Year" ∧ ye.1 ≠ "" ∧ ye.2 ≠ "") :
    scraperTierGeneral patterns pm ptoy = dpTierGeneral patterns pm ptoy := by
  unfold scraperTierGeneral dpTierGeneral
  apply findSome?_congr_fun
  intro ptext _
  cases lookupA pm ptext with
  | none => rfl
  | some pv =>
    dsimp only
    cases hl : lookupA ptoy pv with
    | none => rfl
    | some years =>
      dsimp only
      have hys := hY (pv, years) (lookupA_mem hl)
      apply findSome?_congr_fun
      intro e he
      rw [if_neg ((hys.2 e he).1)]

theorem scraperTierFallback_eq_dp (ptoy : PtoY)
    (hY : ∀ pe ∈ ptoy, (pe.2.map Prod.fst).Nodup ∧
      ∀ ye ∈ pe.2, ye.1 ≠ "Select Year" ∧ ye.1 ≠ "" ∧ ye.2 ≠ "") :
    scraperTierFallback ptoy = dpTierFallback ptoy := by
  unfold scraperTierFallback dpTierFallback
  apply findSome?_congr_fun
  intro e he
  have hys := hY e he
  by_cases hguard : (!e.2.isEmpty && decide (e.1 ≠ "0")) = true
  · rw [if_pos hguard, if_pos hguard]
    have hcong : e.2.findSome?
        (fun ye : String × String => if ye.2 ≠ "0" then some (e.1, ye.2) else none) =
        e.2.findSome?
        (fun ye : String × String =>
          if decide (ye.2 ≠ "0") = true then some (e.1, ye.2) else none) := by
      apply findSome?_congr_fun
      intro ye _
      by_cases h0 : ye.2 = "0"
      · rw [if_neg (not_not_intro h0), if_neg (by simp [h0])]
      · rw [if_pos h0, if_pos (by simpa using h0)]
    rw [hcong, findSome?_guard_find?,
      dpFallbackYears_eq e.2 hys.1 (fun ye hye => (hys.2 ye hye).1),
      find?_eq_head_filter]
    cases e.2.filter (fun ye => decide (ye.2 ≠ "0")) with
    | nil => rfl
    | cons fe ft => rfl
  · rw [if_neg hguard, if_neg hguard]

/-- C10 counterexample: on an index holding one period whose only year is
the placeholder entry Select Year with value "5", the scraper resolver
returns ("p1", "5") through its final fallback (which scans raw year
values), while the document-processor resolver filters the placeholder out
and falls through to the hard-coded pair; the two implementations
disagree. -/
theorem c10_divergence_counterexample :
    scraper_get_values_for_year_period "2014-15" []
      [("p1", [("Select Year", "5")])] = ("p1", "5") ∧
    dp_get_values_for_year_period "2014-15" [] []
      [("p1", [("Select Year", "5")])] = ("15-164943", "113") ∧
    (("p1", "5") : String × String) ≠ ("15-164943", "113") := by
  refine ⟨by decide, by decide, by decide⟩

/-- C10 amended: the two period-year resolution implementations return the
same (period value, year value) pair on every index whose period dictionary
has pairwise distinct labels and whose year dictionaries have pairwise
distinct keys, none of which is the placeholder Select Year or empty, and
no empty year value.  Outside this well-formed class they can diverge, as
the counterexample shows. -/
theorem c10_resolvers_agree_amended (yp : String) (pm ym : Dict) (ptoy : PtoY)
    (hpm : (pm.map Prod.fst).Nodup)
    (hY : ∀ pe ∈ ptoy, (pe.2.map Prod.fst).Nodup ∧
      ∀ ye ∈ pe.2, ye.1 ≠ "Select Year" ∧ ye.1 ≠ "" ∧ ye.2 ≠ "") :
    scraper_get_values_for_year_period yp pm ptoy =
      dp_get_values_for_year_period yp pm ym ptoy := by
  simp only [scraper_get_values_for_year_period, dp_get_values_for_year_period]
  rw [scraperTierPattern_eq_dp yp (patternsFor yp) pm ptoy hpm hY,
    scraperTierGeneral_eq_dp (patternsFor yp) pm ptoy hY,
    scraperTierFallback_eq_dp ptoy hY]

/-- Witness for C10: both resolvers return the same pair on a concrete
well-formed index. -/
theorem c10_resolvers_agree_amended_witness :
    scraper_get_values_for_year_period "2014-15" [("FY 2014-2015", "p1")]
      [("p1", [("2014-15", "y1")])] =
    dp_get_values_for_year_period "2014-15" [("FY 2014-2015", "p1")] []
      [("p1", [("2014-15", "y1")])] :=
  c10_resolvers_agree_amended "2014-15" [("FY 2014-2015", "p1")] []
    [("p1", [("2014-15", "y1")])] (by decide) (by decide)

end TitleTrail
